import Mathlib

/-!
Shallow embedding of `src/ethereum_spec_evm_resolver/daemon.py`
(with `main.py` as its caller), the multiplexing proxy daemon of
ethereum-spec-evm-resolver, together with theorems settling the frozen
claims about it.  Pure fragments of the Python code become Lean
functions; the stateful parts (`_UnixSocketHttpServer`) become explicit
state passing over `ServerState`; Python exceptions become explicit
result values.  Times are modelled in tenths of a second (naturals) for
the spawn backoff loop and in rational seconds for the watchdog.
-/

namespace EvmResolver

/-- JSON values as produced by json.loads / requests Response.json.
Objects are association lists of string keys in insertion order, exactly
as CPython dicts behave. -/
inductive Json where
  | null
  | bool (b : Bool)
  | num (n : Int)
  | str (s : String)
  | arr (elems : List Json)
  | obj (fields : List (String × Json))

/-- Key lookup d[k] on a Python dict modelled as an association list:
the value of the first binding whose key is k, if any. -/
def dictGet (fields : List (String × Json)) (k : String) : Option Json :=
  (fields.find? (fun kv => kv.1 = k)).map (fun kv => kv.2)

/-- Item assignment d[k] = v on a Python dict: replaces the value in
place when k is already a key, otherwise appends the new binding at the
end (CPython dicts preserve insertion order). -/
def dictSet (fields : List (String × Json)) (k : String) (v : Json) :
    List (String × Json) :=
  if fields.any (fun kv => kv.1 = k) then
    fields.map (fun kv => if kv.1 = k then (k, v) else kv)
  else fields ++ [(k, v)]

/-- The metadata key added by _EvmToolHandler.do_POST (daemon.py line 55). -/
def infoMetadataKey : String := "_info_metadata"

/-- The nested key inside the metadata object (daemon.py line 56). -/
def eelsResolutionKey : String := "eels-resolution"

/-- From daemon.py lines 54 to 57: the augmentation
response_json[infoMetadataKey] = the object with the single field
eelsResolutionKey holding get_fork_resolution_info(fork).  `info` is the
abstract metadata value returned by the resolution subsystem. -/
def addInfoMetadata (response_json : List (String × Json)) (info : Json) :
    List (String × Json) :=
  dictSet response_json infoMetadataKey (Json.obj [(eelsResolutionKey, info)])

/-- Bytes kept verbatim by urllib.parse.quote with safe set to the empty
string: ASCII letters, digits, underscore, dot, hyphen and tilde
(CPython _ALWAYS_SAFE minus nothing, with the default safe characters
removed because safe is empty). -/
def isAlwaysSafe (b : Nat) : Bool :=
  (0x41 ≤ b && b ≤ 0x5A) || (0x61 ≤ b && b ≤ 0x7A) ||
  (0x30 ≤ b && b ≤ 0x39) || b == 0x5F || b == 0x2E || b == 0x2D || b == 0x7E

/-- Uppercase hexadecimal digit for a value below 16. -/
def hexUpper (n : Nat) : Char :=
  if n < 10 then Char.ofNat (0x30 + n) else Char.ofNat (0x41 + (n - 10))

/-- Percent-encoding of one byte as urllib.parse.quote performs it with
an empty safe set: safe bytes stand for themselves, every other byte
becomes a percent sign followed by two uppercase hex digits. -/
def quoteByte (b : Nat) : String :=
  if isAlwaysSafe b then String.singleton (Char.ofNat b)
  else String.singleton (Char.ofNat 0x25) ++ String.singleton (hexUpper (b / 16))
    ++ String.singleton (hexUpper (b % 16))

/-- urllib.parse.quote(s, safe=empty): UTF-8 encode, then percent-encode
every byte outside the always-safe set. -/
def pyQuote (s : String) : String :=
  String.join ((s.toUTF8.toList).map (fun b => quoteByte b.toNat))

/-- From daemon.py line 75 in get_subserver_url: the socket path
runtime_dir / (fork + "." + str(os.getpid()) + ".sock") used for
steady-state proxying.  `runtimeDir` stands for the global runtime_dir. -/
def proxySocketPath (runtimeDir fork : String) (pid : Nat) : String :=
  runtimeDir ++ "/" ++ (fork ++ "." ++ toString pid ++ ".sock")

/-- From daemon.py line 115 in spawn_subserver: the socket path
runtime_dir / (fork + "." + str(os.getpid()) + ".sock") polled for
existence during spawning and passed to the child on its command line. -/
def spawnUdsPath (runtimeDir fork : String) (pid : Nat) : String :=
  runtimeDir ++ "/" ++ (fork ++ "." ++ toString pid ++ ".sock")

/-- A parsed URL as used by get_subserver_url: urlparse(path) followed by
replacing scheme and netloc, then urlunparse.  Only the components the
code touches are modelled. -/
structure Url where
  scheme : String
  netloc : String
  path : String
deriving DecidableEq, Repr

/-- From daemon.py lines 72 to 81, get_subserver_url(path, fork): build
the backend URL with scheme http+unix and the percent-quoted socket path
as netloc, keeping the request path. -/
def get_subserver_url (runtimeDir : String) (pid : Nat) (path fork : String) :
    Url :=
  { scheme := "http+unix"
    netloc := pyQuote (proxySocketPath runtimeDir fork pid)
    path := path }

/-- The path of the liveness probe issued during spawning
(daemon.py line 140). -/
def heartbeatPath : String := "/heartbeat/"

/-- Observable actions performed by spawn_subserver, in program order.
Lock actions come from the with-statement on self.lock (line 111), which
releases the lock also when an exception propagates. -/
inductive SpawnAction where
  | acquireLock
  | resolveFork (fork : String)
  | popenSubserver (fork : String) (uds : String)
  | registerFork (fork : String)
  | pollSocketPath (i : Nat)
  | sleepTenths (tenths : Nat)
  | raiseSpawnTimeout
  | heartbeatProbe (i : Nat)
  | releaseLock
deriving DecidableEq, Repr

/-- Initial wait_time of 0.1 seconds (daemon.py line 130), in tenths of
a second. -/
def initialWaitTenths : Nat := 1

/-- The backoff cap: the loop raises once wait_time exceeds 100 seconds
(daemon.py line 134), i.e. 1000 tenths. -/
def waitCapTenths : Nat := 1000

/-- wait_time after k doublings, in tenths of a second: wait_time starts
at 0.1 s and is doubled once per failed poll before sleeping. -/
def waitTimeTenths (k : Nat) : Nat := initialWaitTenths * 2 ^ k

/-- Result of the socket-path wait loop: whether the spawn-timeout
exception was raised, the total time slept in tenths of a second, the
number of uds_path.exists() polls performed, and the emitted actions. -/
structure WaitOutcome where
  timedOut : Bool
  sleptTenths : Nat
  polls : Nat
  trace : List SpawnAction
deriving DecidableEq, Repr

/-- The socket-path wait loop of spawn_subserver (daemon.py lines 130 to
137): poll uds_path.exists(); while it fails, double wait_time, sleep
for it, and raise once wait_time exceeds the cap.  `ex i` is the result
of the i-th existence poll; `k` counts the doublings performed so far
and `slept` accumulates sleep time, both 0 at entry. -/
def waitForSocket (ex : Nat → Bool) (k slept : Nat) : WaitOutcome :=
  if ex k then
    { timedOut := false, sleptTenths := slept, polls := k + 1
      trace := [SpawnAction.pollSocketPath k] }
  else if waitCapTenths < waitTimeTenths (k + 1) then
    { timedOut := true, sleptTenths := slept + waitTimeTenths (k + 1), polls := k + 1
      trace := [SpawnAction.pollSocketPath k,
        SpawnAction.sleepTenths (waitTimeTenths (k + 1)), SpawnAction.raiseSpawnTimeout] }
  else
    let r := waitForSocket ex (k + 1) (slept + waitTimeTenths (k + 1))
    { timedOut := r.timedOut, sleptTenths := r.sleptTenths, polls := r.polls
      trace := SpawnAction.pollSocketPath k ::
        SpawnAction.sleepTenths (waitTimeTenths (k + 1)) :: r.trace }
termination_by 10 - k
decreasing_by
  rename_i _h1 h2
  simp only [waitCapTenths, waitTimeTenths, initialWaitTenths, one_mul, not_lt] at h2
  have h10 : (2 : Nat) ^ (k + 1) < 2 ^ 10 := lt_of_le_of_lt h2 (by norm_num)
  have hk : k + 1 < 10 := (Nat.pow_lt_pow_iff_right (by norm_num)).mp h10
  omega

/-- Result of the heartbeat retry loop. -/
structure ProbeOutcome where
  succeeded : Bool
  trace : List SpawnAction
deriving DecidableEq, Repr

/-- The heartbeat retry loop of spawn_subserver (daemon.py lines 138 to
144): issue the probe; on ConnectionError sleep wait_time seconds and
double it, retrying forever.  `hb i` tells whether the i-th probe
succeeds and `w` is the incoming wait_time in tenths, carried over from
the socket wait loop.  The source loop has no bound, so the model is cut
off by `fuel`; succeeded = false means the loop was still retrying after
fuel attempts. -/
def probeLoop (hb : Nat → Bool) (i w fuel : Nat) : ProbeOutcome :=
  match fuel with
  | 0 => { succeeded := false, trace := [] }
  | fuel + 1 =>
    if hb i then { succeeded := true, trace := [SpawnAction.heartbeatProbe i] }
    else
      let r := probeLoop hb (i + 1) (2 * w) fuel
      { succeeded := r.succeeded
        trace := SpawnAction.heartbeatProbe i :: SpawnAction.sleepTenths w :: r.trace }

/-- The environment a spawn attempt runs against: the results of the
successive uds_path.exists() polls and of the successive heartbeat
probes. -/
structure SpawnEnv where
  sockExists : Nat → Bool
  heartbeatOk : Nat → Bool

/-- How one spawn_subserver call ends: normal return, the spawn-timeout
exception of line 135 propagating, or (a model artefact of cutting off
the unbounded probe loop) still retrying the heartbeat probe. -/
inductive SpawnResult where
  | ok
  | spawnTimeout
  | stillProbing
deriving DecidableEq, Repr

/-- The mutable state of _UnixSocketHttpServer relevant to the claims:
running_daemons (a set of forks, modelled as a duplicate-free list),
processes (the forks the launched subprocesses serve, in spawn order)
and last_response (daemon.py line 62).  Python mutations performed
before an exception persist, so every outcome carries a state. -/
structure ServerState where
  running_daemons : List String
  processes : List String
  last_response : Option ℚ
deriving DecidableEq, Repr

/-- The state of a freshly constructed _UnixSocketHttpServer
(daemon.py lines 62 and 65 to 70): empty registry, no subprocesses,
last_response = None. -/
def initState : ServerState :=
  { running_daemons := [], processes := [], last_response := none }

/-- Everything observable about one spawn_subserver call. -/
structure SpawnOutcome where
  state : ServerState
  result : SpawnResult
  trace : List SpawnAction
deriving DecidableEq, Repr

/-- spawn_subserver(fork) (daemon.py lines 109 to 144), serialized by
self.lock so one call is one atomic step.  If the fork is already in
running_daemons nothing happens; otherwise, in program order: resolve
the fork, Popen the subserver (appending to processes, line 116), add
the fork to running_daemons (line 129), run the socket-path wait loop,
then the heartbeat probe loop.  The registry mutations precede both
loops, so they persist when the wait loop raises. -/
def spawn_subserver (env : SpawnEnv) (fuel : Nat) (dir : String) (pid : Nat)
    (fork : String) (st : ServerState) : SpawnOutcome :=
  if fork ∈ st.running_daemons then
    { state := st, result := SpawnResult.ok
      trace := [SpawnAction.acquireLock, SpawnAction.releaseLock] }
  else
    let uds := spawnUdsPath dir fork pid
    let st2 : ServerState :=
      { st with processes := st.processes ++ [fork]
                running_daemons := st.running_daemons ++ [fork] }
    let w := waitForSocket env.sockExists 0 0
    let pre : List SpawnAction :=
      [SpawnAction.acquireLock, SpawnAction.resolveFork fork,
       SpawnAction.popenSubserver fork uds, SpawnAction.registerFork fork]
    if w.timedOut then
      { state := st2, result := SpawnResult.spawnTimeout
        trace := pre ++ w.trace ++ [SpawnAction.releaseLock] }
    else
      let p := probeLoop env.heartbeatOk 0 (waitTimeTenths (w.polls - 1)) fuel
      { state := st2
        result := if p.succeeded then SpawnResult.ok else SpawnResult.stillProbing
        trace := pre ++ w.trace ++ p.trace ++ [SpawnAction.releaseLock] }

/-- One client request as it reaches spawn_subserver: the fork it names
and the spawn environment met if a spawn is attempted. -/
structure Call where
  fork : String
  env : SpawnEnv
  fuel : Nat

/-- A sequence of spawn_subserver calls, serialized by self.lock; the
state threaded through is the server state after each call, whether the
call returned or raised. -/
def runCalls (dir : String) (pid : Nat) (st : ServerState) : List Call → ServerState
  | [] => st
  | c :: cs => runCalls dir pid (spawn_subserver c.env c.fuel dir pid c.fork st).state cs

/-- Actions belonging to readiness confirmation: socket-path polls, the
backoff sleeps, the spawn-timeout raise and heartbeat probes. -/
def isReadinessAction : SpawnAction → Bool
  | SpawnAction.pollSocketPath _ => true
  | SpawnAction.sleepTenths _ => true
  | SpawnAction.raiseSpawnTimeout => true
  | SpawnAction.heartbeatProbe _ => true
  | _ => false

/-- The readiness-confirmation part of the spawn_subserver trace: the
socket-path wait loop actions followed, when the wait did not time out,
by the heartbeat probe actions. -/
def readinessTrace (env : SpawnEnv) (fuel : Nat) : List SpawnAction :=
  let w := waitForSocket env.sockExists 0 0
  if w.timedOut then w.trace
  else w.trace ++ (probeLoop env.heartbeatOk 0 (waitTimeTenths (w.polls - 1)) fuel).trace

/-- A spawn environment in which the backend socket never appears. -/
def envNeverExists : SpawnEnv :=
  { sockExists := fun _ => false, heartbeatOk := fun _ => true }

/-- A spawn environment in which the socket exists at the first poll and
the first heartbeat probe succeeds. -/
def envImmediate : SpawnEnv :=
  { sockExists := fun _ => true, heartbeatOk := fun _ => true }

/-- The watchdog polling interval: time.sleep(11.0) in check_timeout
(daemon.py line 100), in seconds. -/
def pollIntervalSeconds : ℚ := 11

/-- The idle threshold: now - last_response > 60.0 triggers shutdown
(daemon.py line 105), in seconds. -/
def idleThresholdSeconds : ℚ := 60

/-- One iteration of the check_timeout loop body (daemon.py lines 101 to
107) at monotonic time `now`: when last_response is None it is seeded
with now; otherwise shutdown is triggered exactly when the gap exceeds
the idle threshold.  Returns the new last_response and whether
self.shutdown() was called. -/
def checkTimeoutStep (lastResponse : Option ℚ) (now : ℚ) : Option ℚ × Bool :=
  match lastResponse with
  | none => (some now, false)
  | some l => if idleThresholdSeconds < now - l then (some l, true) else (some l, false)

/-- The check_timeout thread of a daemon that never serves a request,
started at monotonic time `start`: the k-th iteration wakes at
start + 11 * k and runs checkTimeoutStep; once shutdown is triggered the
loop has exited (the break on line 107). -/
def watchdogRun (start : ℚ) : Nat → Option ℚ × Bool
  | 0 => (none, false)
  | k + 1 =>
    let p := watchdogRun start k
    if p.2 then p
    else checkTimeoutStep p.1 (start + pollIntervalSeconds * ((k + 1 : Nat) : ℚ))

/-- finish_request (daemon.py lines 88 to 95): run the inherited request
handler inside try/finally; the finally clause stores time.monotonic()
into last_response whether the handler returned or raised.  `handler`
yields the state it leaves behind and its outcome (Except.error for an
escaping exception), `now` is the clock value read in the finally. -/
def finish_request (handler : ServerState → ServerState × Except Unit Unit)
    (now : ℚ) (st : ServerState) : ServerState × Except Unit Unit :=
  let (st2, r) := handler st
  ({ st2 with last_response := some now }, r)

/-- The fork lookup content["state"]["fork"] (daemon.py line 40): none
models the KeyError or TypeError raised when the body is not an object,
the path is absent, or the fork value is not a string (a non-string fork
raises TypeError slightly later, at the string concatenation of
line 115). -/
def extractFork (content : Json) : Option String :=
  match content with
  | Json.obj fields =>
    match dictGet fields ("state") with
    | some (Json.obj sfields) =>
      match dictGet sfields ("fork") with
      | some (Json.str f) => some f
      | _ => none
    | _ => none
  | _ => none

/-- What one connection observes from do_POST: either a relayed HTTP
response, or no response at all because an exception escaped the handler
before anything was written to the socket. -/
inductive ClientOutcome where
  | response (status : Nat) (body : List (String × Json))
  | noResponse

/-- do_POST (daemon.py lines 35 to 58) for one request.  `parsed` is the
result of json.loads on the body (none = JSONDecodeError on line 38);
`spawnAndProxy fork` abstracts lines 42 to 48, returning the backend
status and JSON body, or none when spawn_subserver or the proxied POST
raises; `info fork` is get_fork_resolution_info(fork).  The first write
to the client socket is send_response on line 50, after the backend
call, so on any of these exceptions nothing has been sent. -/
def do_POST (parsed : Option Json)
    (spawnAndProxy : String → Option (Nat × List (String × Json)))
    (info : String → Json) : ClientOutcome :=
  match parsed with
  | none => ClientOutcome.noResponse
  | some content =>
    match extractFork content with
    | none => ClientOutcome.noResponse
    | some fork =>
      match spawnAndProxy fork with
      | none => ClientOutcome.noResponse
      | some (status, backendJson) =>
        ClientOutcome.response status (addInfoMetadata backendJson (info fork))

/-- The dispatch loop the daemon serves under (CPython
socketserver.BaseServer, which _UnixSocketHttpServer inherits): each
incoming request is handled in turn, and an exception escaping the
handler is caught by the loop (handle_error plus shutdown_request), so
handling continues with the next request.  `handle r` is the client
outcome of one request with parse result r. -/
def serveSequence (handle : Option Json → ClientOutcome) :
    List (Option Json) → List ClientOutcome
  | [] => []
  | r :: rs => handle r :: serveSequence handle rs

/-- Process-control events of the daemon shutdown path. -/
inductive DaemonEvent where
  | terminateProc (fork : String)
  | graceSleep1s
  | killProc (fork : String)
  | serverClose
deriving DecidableEq, Repr

/-- kill_subprocesses (daemon.py lines 146 to 152): terminate every
tracked subprocess, sleep one second, then kill every tracked
subprocess. -/
def kill_subprocesses (processes : List String) : List DaemonEvent :=
  processes.map DaemonEvent.terminateProc ++ [DaemonEvent.graceSleep1s]
    ++ processes.map DaemonEvent.killProc

/-- Why serve_forever stops inside Daemon._run: the watchdog called
self.shutdown() (line 106), or the SIGTERM handler installed on line 166
called sys.exit(), raising SystemExit in the main thread. -/
inductive ExitReason where
  | idleShutdown
  | sigterm
deriving DecidableEq, Repr

/-- The observable end of Daemon._run. -/
structure RunOutcome where
  events : List DaemonEvent
  exitCode : Nat
deriving DecidableEq, Repr

/-- Daemon._run (daemon.py lines 163 to 190): serve_forever ends either
normally (watchdog shutdown, _run returns 0) or with the SystemExit
raised by the SIGTERM handler; in both cases the finally clause on
line 186 runs kill_subprocesses, the with-statement closes the server,
and the process exit status is 0 (sys.exit() with no argument raises
SystemExit(None), which CPython turns into a clean exit with status 0). -/
def daemonRun (reason : ExitReason) (processes : List String) : RunOutcome :=
  let serveOutcome : Except Unit Unit :=
    match reason with
    | ExitReason.idleShutdown => Except.ok ()
    | ExitReason.sigterm => Except.error ()
  let events := kill_subprocesses processes ++ [DaemonEvent.serverClose]
  match serveOutcome with
  | Except.ok _ => { events := events, exitCode := 0 }
  | Except.error _ => { events := events, exitCode := 0 }

/-- A proxy stand-in used for concrete witnesses: the backend always
answers 200 with an empty JSON object. -/
def sampleProxy : String → Option (Nat × List (String × Json)) :=
  fun _ => some (200, [])

/-- A resolution-info stand-in used for concrete witnesses. -/
def sampleInfo : String → Json := fun _ => Json.null

/-- A concrete runtime directory used in witnesses. -/
def sampleDir : String := "/rt"

/-- A concrete fork identifier used in witnesses. -/
def forkCancun : String := "Cancun"

theorem waitCapDoublings {k : Nat}
    (h : ¬ waitCapTenths < waitTimeTenths (k + 1)) : k + 1 ≤ 9 := by
  simp only [waitCapTenths, waitTimeTenths, initialWaitTenths, one_mul, not_lt] at h
  have h10 : (2 : Nat) ^ (k + 1) < 2 ^ 10 := lt_of_le_of_lt h (by norm_num)
  have := (Nat.pow_lt_pow_iff_right (by norm_num : 1 < 2)).mp h10
  omega

theorem waitForSocket_polls_le (ex : Nat → Bool) :
    ∀ k slept, k ≤ 9 → (waitForSocket ex k slept).polls ≤ 10 := by
  intro k slept
  induction k, slept using waitForSocket.induct ex with
  | case1 k slept h => intro hk; rw [waitForSocket]; simp [h]; omega
  | case2 k slept h1 h2 => intro hk; rw [waitForSocket]; simp [h1, h2]; omega
  | case3 k slept h1 h2 ih =>
    intro _
    rw [waitForSocket]; simp [h1, h2]
    exact ih (by have := waitCapDoublings h2; omega)

theorem waitForSocket_slept_le (ex : Nat → Bool) :
    ∀ k slept, k ≤ 9 →
      (waitForSocket ex k slept).sleptTenths ≤ slept + (2048 - 2 ^ (k + 1)) := by
  intro k slept
  induction k, slept using waitForSocket.induct ex with
  | case1 k slept h => intro hk; rw [waitForSocket]; simp [h]
  | case2 k slept h1 h2 =>
    intro hk
    rw [waitForSocket]; simp [h1, h2]
    simp only [waitTimeTenths, initialWaitTenths, one_mul]
    have hb : (2 : Nat) ^ (k + 1) ≤ 2 ^ 10 := Nat.pow_le_pow_right (by norm_num) (by omega)
    have h1024 : (2 : Nat) ^ 10 = 1024 := by norm_num
    omega
  | case3 k slept h1 h2 ih =>
    intro _
    have hk9 := waitCapDoublings h2
    rw [waitForSocket]; simp only [h1, h2, Bool.false_eq_true, if_false, ite_false]
    have ihh := ih (by omega)
    simp only [waitTimeTenths, initialWaitTenths, one_mul] at ihh ⊢
    have hpow : (2 : Nat) ^ (k + 2) = 2 * 2 ^ (k + 1) := by ring
    have h2k : (2 : Nat) ^ (k + 1) ≤ 2 ^ 9 := Nat.pow_le_pow_right (by norm_num) (by omega)
    have h512 : (2 : Nat) ^ 9 = 512 := by norm_num
    omega

theorem waitForSocket_success_sock (ex : Nat → Bool) :
    ∀ k slept, (waitForSocket ex k slept).timedOut = false →
      ex ((waitForSocket ex k slept).polls - 1) = true := by
  intro k slept
  induction k, slept using waitForSocket.induct ex with
  | case1 k slept h => intro _; rw [waitForSocket]; simp [h]
  | case2 k slept h1 h2 => rw [waitForSocket]; simp [h1, h2]
  | case3 k slept h1 h2 ih => rw [waitForSocket]; simp [h1, h2]; exact ih

theorem waitForSocket_timeout_all (ex : Nat → Bool) :
    ∀ k slept, (waitForSocket ex k slept).timedOut = true →
      (∀ j, k ≤ j → j < (waitForSocket ex k slept).polls → ex j = false)
      ∧ waitCapTenths < waitTimeTenths ((waitForSocket ex k slept).polls) := by
  intro k slept
  induction k, slept using waitForSocket.induct ex with
  | case1 k slept h => rw [waitForSocket]; simp [h]
  | case2 k slept h1 h2 =>
    rw [waitForSocket]; simp [h1, h2]
    intro j hkj hjk
    have : j = k := by omega
    subst this
    simpa using h1
  | case3 k slept h1 h2 ih =>
    rw [waitForSocket]; simp [h1, h2]
    intro ht
    obtain ⟨ha, hb⟩ := ih ht
    refine ⟨?_, hb⟩
    intro j hkj hjp
    rcases Nat.eq_or_lt_of_le hkj with rfl | hlt
    · simpa using h1
    · exact ha j (by omega) hjp

theorem waitForSocket_trace_readiness (ex : Nat → Bool) :
    ∀ k slept a, a ∈ (waitForSocket ex k slept).trace → isReadinessAction a = true := by
  intro k slept
  induction k, slept using waitForSocket.induct ex with
  | case1 k slept h =>
    intro a ha; rw [waitForSocket] at ha; simp [h] at ha; subst ha; rfl
  | case2 k slept h1 h2 =>
    intro a ha; rw [waitForSocket] at ha; simp [h1, h2] at ha
    rcases ha with rfl | rfl | rfl <;> rfl
  | case3 k slept h1 h2 ih =>
    intro a ha; rw [waitForSocket] at ha; simp [h1, h2] at ha
    rcases ha with rfl | rfl | hmem
    · rfl
    · rfl
    · exact ih a hmem

theorem probeLoop_trace_readiness (hb : Nat → Bool) :
    ∀ fuel i w a, a ∈ (probeLoop hb i w fuel).trace → isReadinessAction a = true := by
  intro fuel
  induction fuel with
  | zero => intro i w a ha; simp [probeLoop] at ha
  | succ fuel ih =>
    intro i w a ha
    by_cases h : hb i
    · simp [probeLoop, h] at ha; subst ha; rfl
    · simp [probeLoop, h] at ha
      rcases ha with rfl | rfl | hmem
      · rfl
      · rfl
      · exact ih (i + 1) (2 * w) a hmem

theorem waitAllFalse_timedOut (ex : Nat → Bool) (hex : ∀ j, ex j = false) :
    ∀ k slept, (waitForSocket ex k slept).timedOut = true := by
  intro k slept
  induction k, slept using waitForSocket.induct ex with
  | case1 k slept h => rw [hex k] at h; exact absurd h (by simp)
  | case2 k slept h1 h2 => rw [waitForSocket]; simp [h1, h2]
  | case3 k slept h1 h2 ih => rw [waitForSocket]; simp [h1, h2]; exact ih

theorem wait_envNeverExists :
    (waitForSocket envNeverExists.sockExists 0 0).timedOut = true :=
  waitAllFalse_timedOut _ (fun _ => rfl) 0 0

theorem wait_envImmediate :
    waitForSocket envImmediate.sockExists 0 0 =
      { timedOut := false, sleptTenths := 0, polls := 1
        trace := [SpawnAction.pollSocketPath 0] } := by
  rw [waitForSocket]; rfl

/-- C6: the wait for the backend socket path polls with doubling backoff
from a short initial interval (0.1 s, doubling each failed poll) and
always terminates: the total sleep is at most 204.6 s over at most 10
polls; when it does not time out the socket appeared at the last poll,
and when it times out the socket never appeared at any poll and the
final backoff interval exceeded the 100 s cap, which is what raised the
spawn-timeout error. -/
theorem C6_backoff_bounded (ex : Nat → Bool) :
    waitTimeTenths 0 = initialWaitTenths
    ∧ (∀ k, waitTimeTenths (k + 1) = 2 * waitTimeTenths k)
    ∧ (waitForSocket ex 0 0).polls ≤ 10
    ∧ (waitForSocket ex 0 0).sleptTenths ≤ 2046
    ∧ ((waitForSocket ex 0 0).timedOut = false →
        ex ((waitForSocket ex 0 0).polls - 1) = true)
    ∧ ((waitForSocket ex 0 0).timedOut = true →
        (∀ j < (waitForSocket ex 0 0).polls, ex j = false)
        ∧ waitCapTenths < waitTimeTenths ((waitForSocket ex 0 0).polls)) := by
  refine ⟨by simp [waitTimeTenths], fun k => by simp [waitTimeTenths]; ring, ?_, ?_, ?_, ?_⟩
  · exact waitForSocket_polls_le ex 0 0 (by omega)
  · simpa using waitForSocket_slept_le ex 0 0 (by omega)
  · exact waitForSocket_success_sock ex 0 0
  · intro ht
    obtain ⟨ha, hb⟩ := waitForSocket_timeout_all ex 0 0 ht
    exact ⟨fun j hj => ha j (by omega) hj, hb⟩

/-- Witness for C6: at the oracle where the socket appears immediately
the loop reports the socket was seen at its last poll, and at the oracle
where it never appears the final backoff interval exceeded the cap. -/
theorem C6_backoff_bounded_witness :
    (fun _ => true : Nat → Bool) ((waitForSocket (fun _ => true) 0 0).polls - 1) = true
    ∧ waitCapTenths < waitTimeTenths ((waitForSocket (fun _ => false) 0 0).polls) := by
  constructor
  · exact (C6_backoff_bounded (fun _ => true)).2.2.2.2.1 (by rw [waitForSocket]; rfl)
  · exact ((C6_backoff_bounded (fun _ => false)).2.2.2.2.2
      (waitAllFalse_timedOut _ (fun _ => rfl) 0 0)).2

theorem spawn_state_eq (env : SpawnEnv) (fuel : Nat) (dir : String) (pid : Nat)
    (fork : String) (st : ServerState) :
    (spawn_subserver env fuel dir pid fork st).state =
      if fork ∈ st.running_daemons then st
      else { st with processes := st.processes ++ [fork]
                     running_daemons := st.running_daemons ++ [fork] } := by
  unfold spawn_subserver
  by_cases h : fork ∈ st.running_daemons
  · simp [h]
  · simp [h]
    split <;> rfl

theorem spawn_processes_count (env : SpawnEnv) (fuel : Nat) (dir : String)
    (pid : Nat) (fork : String) (st : ServerState) (f : String) :
    (spawn_subserver env fuel dir pid fork st).state.processes.count f =
      st.processes.count f
        + (if fork = f ∧ fork ∉ st.running_daemons then 1 else 0) := by
  rw [spawn_state_eq]
  by_cases h : fork ∈ st.running_daemons
  · simp [h]
  · by_cases hf : fork = f
    · subst hf; simp [h]
    · simp [h, hf, List.count_append]
      rw [List.count_eq_zero]
      simp [Ne.symm hf]

theorem spawn_daemons_count (env : SpawnEnv) (fuel : Nat) (dir : String)
    (pid : Nat) (fork : String) (st : ServerState) (f : String) :
    (spawn_subserver env fuel dir pid fork st).state.running_daemons.count f =
      st.running_daemons.count f
        + (if fork = f ∧ fork ∉ st.running_daemons then 1 else 0) := by
  rw [spawn_state_eq]
  by_cases h : fork ∈ st.running_daemons
  · simp [h]
  · by_cases hf : fork = f
    · subst hf; simp [h]
    · simp [h, hf, List.count_append]
      rw [List.count_eq_zero]
      simp [Ne.symm hf]

theorem spawn_daemons_mem (env : SpawnEnv) (fuel : Nat) (dir : String)
    (pid : Nat) (fork : String) (st : ServerState) (f : String) :
    (f ∈ (spawn_subserver env fuel dir pid fork st).state.running_daemons
      ↔ f ∈ st.running_daemons ∨ f = fork) := by
  rw [spawn_state_eq]
  by_cases h : fork ∈ st.running_daemons
  · simp [h]
    intro hf
    subst hf
    exact h
  · simp [h]

theorem runCalls_daemons_mem (dir : String) (pid : Nat) (f : String) :
    ∀ (cs : List Call) (st : ServerState),
      (f ∈ (runCalls dir pid st cs).running_daemons
        ↔ f ∈ st.running_daemons ∨ ∃ c ∈ cs, c.fork = f) := by
  intro cs
  induction cs with
  | nil => intro st; simp [runCalls]
  | cons c cs ih =>
    intro st
    rw [runCalls, ih, spawn_daemons_mem]
    constructor
    · rintro ((hst | hf) | ⟨c2, hc2, hf2⟩)
      · exact Or.inl hst
      · exact Or.inr ⟨c, by simp, hf.symm⟩
      · exact Or.inr ⟨c2, by simp [hc2], hf2⟩
    · rintro (hst | ⟨c2, hc2, hf2⟩)
      · exact Or.inl (Or.inl hst)
      · rcases List.mem_cons.mp hc2 with rfl | hmem
        · exact Or.inl (Or.inr hf2.symm)
        · exact Or.inr ⟨c2, hmem, hf2⟩

theorem runCalls_processes_count (dir : String) (pid : Nat) (f : String) :
    ∀ (cs : List Call) (st : ServerState),
      (runCalls dir pid st cs).processes.count f =
        st.processes.count f
          + (if f ∉ st.running_daemons ∧ ∃ c ∈ cs, c.fork = f then 1 else 0) := by
  intro cs
  induction cs with
  | nil => intro st; simp [runCalls]
  | cons c cs ih =>
    intro st
    rw [runCalls, ih, spawn_processes_count]
    simp only [spawn_daemons_mem]
    by_cases hc : c.fork = f
    · subst hc
      by_cases hm : c.fork ∈ st.running_daemons <;>
        simp [hm, List.exists_mem_cons_iff]
    · have hcf : ¬ f = c.fork := fun h => hc h.symm
      by_cases hm : f ∈ st.running_daemons <;>
        simp [hc, hcf, hm, List.exists_mem_cons_iff]

theorem runCalls_daemons_count (dir : String) (pid : Nat) (f : String) :
    ∀ (cs : List Call) (st : ServerState),
      (runCalls dir pid st cs).running_daemons.count f =
        st.running_daemons.count f
          + (if f ∉ st.running_daemons ∧ ∃ c ∈ cs, c.fork = f then 1 else 0) := by
  intro cs
  induction cs with
  | nil => intro st; simp [runCalls]
  | cons c cs ih =>
    intro st
    rw [runCalls, ih, spawn_daemons_count]
    simp only [spawn_daemons_mem]
    by_cases hc : c.fork = f
    · subst hc
      by_cases hm : c.fork ∈ st.running_daemons <;>
        simp [hm, List.exists_mem_cons_iff]
    · have hcf : ¬ f = c.fork := fun h => hc h.symm
      by_cases hm : f ∈ st.running_daemons <;>
        simp [hc, hcf, hm, List.exists_mem_cons_iff]

/-- C1: starting from a fresh daemon, over any sequence of
spawn_subserver calls the number of subprocesses spawned for a fork is
exactly one when some call names that fork and zero otherwise — the
first call for a fork spawns exactly one backend and every later call
spawns none — and the registry likewise never holds more than one
registration per fork. -/
theorem C1_single_spawn_per_fork (dir : String) (pid : Nat) (calls : List Call)
    (f : String) :
    (runCalls dir pid initState calls).processes.count f
        = (if ∃ c ∈ calls, c.fork = f then 1 else 0)
    ∧ (runCalls dir pid initState calls).running_daemons.count f
        = (if ∃ c ∈ calls, c.fork = f then 1 else 0) := by
  constructor
  · rw [runCalls_processes_count]
    simp [initState]
  · rw [runCalls_daemons_count]
    simp [initState]

theorem spawn_timeout_not_mem (env : SpawnEnv) (fuel : Nat) (dir : String)
    (pid : Nat) (fork : String) (st : ServerState)
    (h : (spawn_subserver env fuel dir pid fork st).result = SpawnResult.spawnTimeout) :
    fork ∉ st.running_daemons := by
  intro hm
  unfold spawn_subserver at h
  simp [hm] at h

theorem spawn_mem_result_state (env : SpawnEnv) (fuel : Nat) (dir : String)
    (pid : Nat) (fork : String) (st : ServerState) :
    fork ∈ (spawn_subserver env fuel dir pid fork st).state.running_daemons := by
  rw [spawn_state_eq]
  by_cases hm : fork ∈ st.running_daemons
  · simp [hm]
  · simp [hm]

theorem spawn_on_registered (env : SpawnEnv) (fuel : Nat) (dir : String)
    (pid : Nat) (fork : String) (st : ServerState)
    (h : fork ∈ st.running_daemons) :
    spawn_subserver env fuel dir pid fork st
      = { state := st, result := SpawnResult.ok
          trace := [SpawnAction.acquireLock, SpawnAction.releaseLock] } := by
  unfold spawn_subserver
  simp [h]

/-- C2 amended: when spawn_subserver fails for a fork with the
spawn-timeout error, the registration is NOT rolled back — the fork was
added to running_daemons before the wait loop and stays there, and the
subprocess entry stays in the process list — so a subsequent call for
the same fork returns immediately without attempting the spawn sequence
again. -/
theorem C2_amended_no_rollback (env : SpawnEnv) (fuel : Nat) (dir : String)
    (pid : Nat) (fork : String) (st : ServerState)
    (h : (spawn_subserver env fuel dir pid fork st).result = SpawnResult.spawnTimeout) :
    fork ∈ (spawn_subserver env fuel dir pid fork st).state.running_daemons
    ∧ (spawn_subserver env fuel dir pid fork st).state.processes.count fork
        = st.processes.count fork + 1
    ∧ (∀ env2 fuel2,
        spawn_subserver env2 fuel2 dir pid fork
            (spawn_subserver env fuel dir pid fork st).state
          = { state := (spawn_subserver env fuel dir pid fork st).state
              result := SpawnResult.ok
              trace := [SpawnAction.acquireLock, SpawnAction.releaseLock] }) := by
  have hnm := spawn_timeout_not_mem env fuel dir pid fork st h
  have hmem := spawn_mem_result_state env fuel dir pid fork st
  refine ⟨hmem, ?_, ?_⟩
  · rw [spawn_processes_count]
    simp [hnm]
  · intro env2 fuel2
    exact spawn_on_registered env2 fuel2 dir pid fork _ hmem

theorem spawnNever_result :
    (spawn_subserver envNeverExists 0 sampleDir 7 forkCancun initState).result
      = SpawnResult.spawnTimeout := by
  unfold spawn_subserver
  simp [initState, wait_envNeverExists]

/-- Witness for C2 amended: at the environment where the socket never
appears, the first call for the fork raises the spawn timeout, yet the
fork remains registered and counted as spawned. -/
theorem C2_amended_no_rollback_witness :
    forkCancun ∈ (spawn_subserver envNeverExists 0 sampleDir 7 forkCancun
        initState).state.running_daemons
    ∧ (spawn_subserver envNeverExists 0 sampleDir 7 forkCancun
        initState).state.processes.count forkCancun
      = initState.processes.count forkCancun + 1 := by
  have h := C2_amended_no_rollback envNeverExists 0 sampleDir 7 forkCancun initState
    spawnNever_result
  exact ⟨h.1, h.2.1⟩

/-- Counterexample to C2 as stated: with the socket never appearing, the
first call for the fork fails with the spawn timeout, but the fork IS
left marked as running, and the subsequent call for the same fork does
not attempt the spawn sequence again — it returns at once with no new
subprocess, leaving the process list unchanged. -/
theorem C2_counterexample :
    (spawn_subserver envNeverExists 0 sampleDir 7 forkCancun initState).result
        = SpawnResult.spawnTimeout
    ∧ forkCancun ∈ (spawn_subserver envNeverExists 0 sampleDir 7 forkCancun
        initState).state.running_daemons
    ∧ (spawn_subserver envImmediate 1 sampleDir 7 forkCancun
          (spawn_subserver envNeverExists 0 sampleDir 7 forkCancun initState).state).trace
        = [SpawnAction.acquireLock, SpawnAction.releaseLock]
    ∧ (spawn_subserver envImmediate 1 sampleDir 7 forkCancun
          (spawn_subserver envNeverExists 0 sampleDir 7 forkCancun initState).state).state.processes
        = [forkCancun] := by
  have hstate : (spawn_subserver envNeverExists 0 sampleDir 7 forkCancun initState).state
      = { running_daemons := [forkCancun], processes := [forkCancun]
          last_response := none } := by
    rw [spawn_state_eq]
    simp [initState]
  have hmem : forkCancun ∈ (spawn_subserver envNeverExists 0 sampleDir 7 forkCancun
      initState).state.running_daemons := by
    rw [hstate]; simp
  have hsecond := spawn_on_registered envImmediate 1 sampleDir 7 forkCancun _ hmem
  refine ⟨spawnNever_result, hmem, ?_, ?_⟩
  · rw [hsecond]
  · rw [hsecond, hstate]

/-- C3 amended: on the first call for a fork, spawn_subserver performs,
in order and all inside the critical section delimited by acquiring and
releasing the registry lock: fork resolution, spawning the backend
subprocess, recording the registration, and THEN readiness confirmation
(socket-path polling followed by heartbeat probing) — the registration
is recorded before readiness is confirmed, not after, while no
half-registered state is observable outside the critical section. -/
theorem C3_amended_order (env : SpawnEnv) (fuel : Nat) (dir : String) (pid : Nat)
    (fork : String) (st : ServerState) (h : fork ∉ st.running_daemons) :
    (spawn_subserver env fuel dir pid fork st).trace
        = SpawnAction.acquireLock :: SpawnAction.resolveFork fork
            :: SpawnAction.popenSubserver fork (spawnUdsPath dir fork pid)
            :: SpawnAction.registerFork fork
            :: (readinessTrace env fuel ++ [SpawnAction.releaseLock])
    ∧ (∀ a ∈ readinessTrace env fuel, isReadinessAction a = true) := by
  constructor
  · unfold spawn_subserver readinessTrace
    by_cases ht : (waitForSocket env.sockExists 0 0).timedOut = true
    · simp [h, ht]
    · simp [h, ht]
  · intro a ha
    unfold readinessTrace at ha
    by_cases ht : (waitForSocket env.sockExists 0 0).timedOut = true
    · simp [ht] at ha
      exact waitForSocket_trace_readiness env.sockExists 0 0 a ha
    · simp [ht] at ha
      rcases ha with h1 | h2
      · exact waitForSocket_trace_readiness env.sockExists 0 0 a h1
      · exact probeLoop_trace_readiness env.heartbeatOk fuel 0 _ a h2

theorem readiness_envImmediate :
    readinessTrace envImmediate 1
      = [SpawnAction.pollSocketPath 0, SpawnAction.heartbeatProbe 0] := by
  unfold readinessTrace
  rw [wait_envImmediate]
  simp [probeLoop, waitTimeTenths, initialWaitTenths, envImmediate]

/-- Witness for C3 amended: the concrete trace of a first-time spawn in
the environment where socket and heartbeat are immediately ready. -/
theorem C3_amended_order_witness :
    (spawn_subserver envImmediate 1 sampleDir 7 forkCancun initState).trace
        = SpawnAction.acquireLock :: SpawnAction.resolveFork forkCancun
            :: SpawnAction.popenSubserver forkCancun (spawnUdsPath sampleDir forkCancun 7)
            :: SpawnAction.registerFork forkCancun
            :: (readinessTrace envImmediate 1 ++ [SpawnAction.releaseLock])
    ∧ isReadinessAction (SpawnAction.pollSocketPath 0) = true := by
  have h := C3_amended_order envImmediate 1 sampleDir 7 forkCancun initState
    (by simp [initState])
  refine ⟨h.1, h.2 (SpawnAction.pollSocketPath 0) ?_⟩
  rw [readiness_envImmediate]
  simp

/-- Counterexample to C3 as stated: in the concrete first-for-fork trace
the registration action sits at index 3, BEFORE the first readiness
action (the socket poll at index 4 and the heartbeat probe at index 5),
so the registration is recorded before readiness is confirmed, not
after. -/
theorem C3_counterexample :
    (spawn_subserver envImmediate 1 sampleDir 7 forkCancun initState).trace
        = [SpawnAction.acquireLock, SpawnAction.resolveFork forkCancun,
           SpawnAction.popenSubserver forkCancun (spawnUdsPath sampleDir forkCancun 7),
           SpawnAction.registerFork forkCancun,
           SpawnAction.pollSocketPath 0, SpawnAction.heartbeatProbe 0,
           SpawnAction.releaseLock]
    ∧ ((spawn_subserver envImmediate 1 sampleDir 7 forkCancun initState).trace)[3]?
        = some (SpawnAction.registerFork forkCancun)
    ∧ ((spawn_subserver envImmediate 1 sampleDir 7 forkCancun initState).trace)[4]?
        = some (SpawnAction.pollSocketPath 0)
    ∧ ((spawn_subserver envImmediate 1 sampleDir 7 forkCancun initState).trace)[5]?
        = some (SpawnAction.heartbeatProbe 0) := by
  have htr : (spawn_subserver envImmediate 1 sampleDir 7 forkCancun initState).trace
      = [SpawnAction.acquireLock, SpawnAction.resolveFork forkCancun,
         SpawnAction.popenSubserver forkCancun (spawnUdsPath sampleDir forkCancun 7),
         SpawnAction.registerFork forkCancun,
         SpawnAction.pollSocketPath 0, SpawnAction.heartbeatProbe 0,
         SpawnAction.releaseLock] := by
    unfold spawn_subserver
    rw [wait_envImmediate]
    simp [initState, probeLoop, waitTimeTenths, initialWaitTenths, envImmediate]
  refine ⟨htr, ?_, ?_, ?_⟩ <;> rw [htr] <;> rfl

theorem checkTimeoutStep_none (now : ℚ) :
    checkTimeoutStep none now = (some now, false) := rfl

theorem checkTimeoutStep_some_fst (l now : ℚ) :
    (checkTimeoutStep (some l) now).1 = some l := by
  simp only [checkTimeoutStep]
  split <;> rfl

theorem checkTimeoutStep_some_snd (l now : ℚ) :
    ((checkTimeoutStep (some l) now).2 = true ↔ idleThresholdSeconds < now - l) := by
  simp only [checkTimeoutStep]
  split <;> simp_all

theorem watchdogRun_state (start : ℚ) :
    ∀ k, 1 ≤ k → (watchdogRun start k).1 = some (start + pollIntervalSeconds) := by
  intro k
  induction k with
  | zero => intro h; omega
  | succ k ih =>
    intro _
    rcases Nat.eq_zero_or_pos k with rfl | hk
    · simp [watchdogRun, checkTimeoutStep]
    · rw [watchdogRun]
      by_cases hstop : (watchdogRun start k).2 = true
      · simp [hstop, ih hk]
      · simp only [hstop, if_false, Bool.false_eq_true]
        rw [ih hk, checkTimeoutStep_some_fst]

theorem watchdogRun_shutdown_late (start : ℚ) :
    ∀ k : Nat, (watchdogRun start k).2 = true →
      idleThresholdSeconds + pollIntervalSeconds < pollIntervalSeconds * (k : ℚ) := by
  intro k
  induction k with
  | zero => intro h; simp [watchdogRun] at h
  | succ k ih =>
    intro h
    rw [watchdogRun] at h
    by_cases hstop : (watchdogRun start k).2 = true
    · have hlt := ih hstop
      have : pollIntervalSeconds * (k : ℚ) ≤ pollIntervalSeconds * ((k + 1 : Nat) : ℚ) := by
        simp only [pollIntervalSeconds]
        push_cast
        linarith
      linarith
    · simp only [hstop, if_false, Bool.false_eq_true] at h
      rcases Nat.eq_zero_or_pos k with rfl | hk
      · rw [show (watchdogRun start 0).1 = none from rfl, checkTimeoutStep_none] at h
        simp at h
      · rw [watchdogRun_state start k hk, checkTimeoutStep_some_snd] at h
        simp only [pollIntervalSeconds, idleThresholdSeconds] at h ⊢
        push_cast at h ⊢
        linarith

/-- C7: the watchdog polls on a fixed 11 second interval, strictly
shorter than the 60 second idle threshold; at a check with a seeded
timestamp it triggers shutdown exactly when the gap between now and the
last-response timestamp exceeds the threshold; when no request has ever
completed the first check seeds the timestamp with its own observation
instead of shutting down, so a daemon that never serves a request still
survives past the idle threshold: shutdown can only happen once more
than threshold plus one polling interval has elapsed since the thread
started. -/
theorem C7_watchdog :
    pollIntervalSeconds < idleThresholdSeconds
    ∧ (∀ now : ℚ, checkTimeoutStep none now = (some now, false))
    ∧ (∀ l now : ℚ,
        ((checkTimeoutStep (some l) now).2 = true ↔ idleThresholdSeconds < now - l)
        ∧ (checkTimeoutStep (some l) now).1 = some l)
    ∧ (∀ (start : ℚ) (k : Nat), (watchdogRun start k).2 = true →
        idleThresholdSeconds + pollIntervalSeconds < pollIntervalSeconds * (k : ℚ)) := by
  refine ⟨?_, fun now => checkTimeoutStep_none now,
    fun l now => ⟨checkTimeoutStep_some_snd l now, checkTimeoutStep_some_fst l now⟩,
    fun start k => watchdogRun_shutdown_late start k⟩
  simp [pollIntervalSeconds, idleThresholdSeconds]
  norm_num

theorem watchdogRun_0_7 : watchdogRun 0 7 = (some 11, true) := by
  simp [watchdogRun, checkTimeoutStep, pollIntervalSeconds, idleThresholdSeconds]
  norm_num

/-- Witness for C7: a never-serving daemon started at time 0 shuts down
at the 7th check, at time 77, which is indeed past the 71 second mark of
threshold plus one polling interval. -/
theorem C7_watchdog_witness :
    (watchdogRun 0 7).2 = true
    ∧ idleThresholdSeconds + pollIntervalSeconds < pollIntervalSeconds * ((7 : Nat) : ℚ) := by
  have h2 : (watchdogRun 0 7).2 = true := by rw [watchdogRun_0_7]
  exact ⟨h2, (C7_watchdog.2.2.2) 0 7 h2⟩

theorem addInfoMetadata_append (fields : List (String × Json)) (info : Json)
    (h : infoMetadataKey ∉ fields.map Prod.fst) :
    addInfoMetadata fields info
      = fields ++ [(infoMetadataKey, Json.obj [(eelsResolutionKey, info)])] := by
  unfold addInfoMetadata dictSet
  have hany : (fields.any (fun kv => kv.1 = infoMetadataKey)) = false := by
    rw [List.any_eq_false]
    intro kv hkv
    simp only [decide_eq_true_eq]
    intro heq
    exact h (List.mem_map.mpr ⟨kv, hkv, heq⟩)
  simp [hany]

/-- C4 amended: for every backend JSON object that does not already
contain the metadata key at top level, the client-visible object is the
backend object plus exactly one additional top-level field carrying the
resolution metadata, with every original top-level field preserved
unmodified; when the backend object already contains the metadata key,
the augmentation overwrites it instead (see the counterexample). -/
theorem C4_amended_augment (fields : List (String × Json)) (info : Json)
    (h : infoMetadataKey ∉ fields.map Prod.fst) :
    (addInfoMetadata fields info).length = fields.length + 1
    ∧ (∀ k, k ≠ infoMetadataKey →
        dictGet (addInfoMetadata fields info) k = dictGet fields k)
    ∧ dictGet (addInfoMetadata fields info) infoMetadataKey
        = some (Json.obj [(eelsResolutionKey, info)])
    ∧ (addInfoMetadata fields info).map Prod.fst
        = fields.map Prod.fst ++ [infoMetadataKey] := by
  rw [addInfoMetadata_append fields info h]
  refine ⟨by simp, ?_, ?_, by simp⟩
  · intro k hk
    unfold dictGet
    rw [List.find?_append]
    have hsing : List.find? (fun kv => kv.1 = k)
        [(infoMetadataKey, Json.obj [(eelsResolutionKey, info)])] = none := by
      simp [List.find?, Ne.symm hk]
    rw [hsing, Option.or_none]
  · unfold dictGet
    rw [List.find?_append]
    have hnone : List.find? (fun kv => kv.1 = infoMetadataKey) fields = none := by
      rw [List.find?_eq_none]
      intro kv hkv
      simp only [decide_eq_true_eq]
      intro heq
      exact h (List.mem_map.mpr ⟨kv, hkv, heq⟩)
    rw [hnone]
    simp [List.find?]

/-- Witness for C4 amended: augmenting a one-field backend response
yields two fields with the original preserved and the metadata added. -/
theorem C4_amended_augment_witness :
    (addInfoMetadata [(("gasUsed"), Json.num 21000)] Json.null).length
        = [(("gasUsed"), Json.num 21000)].length + 1
    ∧ dictGet (addInfoMetadata [(("gasUsed"), Json.num 21000)] Json.null) infoMetadataKey
        = some (Json.obj [(eelsResolutionKey, Json.null)])
    ∧ dictGet (addInfoMetadata [(("gasUsed"), Json.num 21000)] Json.null) ("gasUsed")
        = dictGet [(("gasUsed"), Json.num 21000)] ("gasUsed") := by
  have h := C4_amended_augment [(("gasUsed"), Json.num 21000)] Json.null
    (by simp [infoMetadataKey])
  exact ⟨h.1, h.2.2.1, h.2.1 ("gasUsed") (by simp [infoMetadataKey])⟩

/-- Counterexample to C4 as stated: when the backend response itself
contains the metadata key, the augmentation does not add a field — the
object keeps its length — and the original field value is overwritten
rather than preserved, so the property does not hold for every JSON
object the backend may return. -/
theorem C4_counterexample :
    (addInfoMetadata [(infoMetadataKey, Json.null)] Json.null).length
        ≠ [(infoMetadataKey, Json.null)].length + 1
    ∧ dictGet (addInfoMetadata [(infoMetadataKey, Json.null)] Json.null) infoMetadataKey
        ≠ dictGet [(infoMetadataKey, Json.null)] infoMetadataKey := by
  constructor
  · simp [addInfoMetadata, dictSet]
  · intro hx
    simp [addInfoMetadata, dictSet, dictGet, List.find?] at hx

/-- C5: the socket address computed in spawn_subserver for readiness
polling (line 115) and the address formula of get_subserver_url used for
steady-state proxying (line 75) are byte-for-byte the same function of
the (fork, daemon-pid) pair, and the heartbeat probe URL issued during
spawning (line 140) carries exactly the same netloc as the proxy URL for
any request path. -/
theorem C5_address_agreement (dir fork : String) (pid : Nat) (path : String) :
    spawnUdsPath dir fork pid = proxySocketPath dir fork pid
    ∧ get_subserver_url dir pid heartbeatPath fork
        = { scheme := "http+unix"
            netloc := pyQuote (spawnUdsPath dir fork pid)
            path := heartbeatPath }
    ∧ (get_subserver_url dir pid heartbeatPath fork).netloc
        = (get_subserver_url dir pid path fork).netloc :=
  ⟨rfl, rfl, rfl⟩

/-- C8 amended: a malformed request — a body that is not valid JSON, or
valid JSON without the nested fork field — never terminates the
listener: the dispatch loop catches the escaping exception and serves
the remaining requests unchanged; but the failure is not surfaced to the
client as an HTTP client-side error: the handler raises before writing
anything, so the client receives no response at all on that
connection. -/
theorem C8_amended_listener (sp : String → Option (Nat × List (String × Json)))
    (info : String → Json) (bad : Option Json) (rest : List (Option Json))
    (h : bad = none ∨ ∃ c, bad = some c ∧ extractFork c = none) :
    do_POST bad sp info = ClientOutcome.noResponse
    ∧ serveSequence (fun r => do_POST r sp info) (bad :: rest)
        = ClientOutcome.noResponse :: serveSequence (fun r => do_POST r sp info) rest := by
  have h1 : do_POST bad sp info = ClientOutcome.noResponse := by
    rcases h with rfl | ⟨c, rfl, hc⟩
    · rfl
    · simp only [do_POST]
      rw [hc]
  refine ⟨h1, ?_⟩
  rw [serveSequence]
  simp [h1]

/-- Witness for C8 amended: a valid-JSON body with no fork field gets no
response and the listener continues with the remaining requests. -/
theorem C8_amended_listener_witness :
    do_POST (some (Json.obj [])) sampleProxy sampleInfo = ClientOutcome.noResponse
    ∧ serveSequence (fun r => do_POST r sampleProxy sampleInfo) [some (Json.obj [])]
        = ClientOutcome.noResponse
            :: serveSequence (fun r => do_POST r sampleProxy sampleInfo) [] :=
  C8_amended_listener sampleProxy sampleInfo (some (Json.obj [])) []
    (Or.inr ⟨Json.obj [], rfl, rfl⟩)

/-- Counterexample to C8 as stated: for an invalid-JSON body and for a
body missing the fork field the handler produces no response at all —
in particular no client-error response such as a 400 is ever sent to the
requesting client. -/
theorem C8_counterexample :
    do_POST none sampleProxy sampleInfo = ClientOutcome.noResponse
    ∧ do_POST (some (Json.obj [])) sampleProxy sampleInfo = ClientOutcome.noResponse
    ∧ ClientOutcome.noResponse ≠ ClientOutcome.response 400 [] := by
  refine ⟨rfl, rfl, fun hx => ClientOutcome.noConfusion hx⟩

/-- C9: finish_request updates the last-response liveness timestamp of
the daemon to the current clock reading after every request/response
cycle, regardless of whether the inner handler — and hence the proxied
backend call — succeeded or raised, and it passes the handler outcome
through unchanged. -/
theorem C9_liveness_update (handler : ServerState → ServerState × Except Unit Unit)
    (now : ℚ) (st : ServerState) :
    (finish_request handler now st).1.last_response = some now
    ∧ (finish_request handler now st).2 = (handler st).2 := by
  rcases hh : handler st with ⟨st2, r⟩
  constructor
  · simp [finish_request, hh]
  · simp [finish_request, hh]

/-- C10: a SIGTERM received while serving ends the daemon process
cleanly with exit status 0, and before terminating it runs exactly the
same child-reclamation sequence as the watchdog shutdown path: every
tracked backend subprocess is sent terminate, then after the one second
grace delay every tracked subprocess is sent kill, and the server is
closed. -/
theorem C10_sigterm_cleanup (processes : List String) :
    (daemonRun ExitReason.sigterm processes).exitCode = 0
    ∧ (daemonRun ExitReason.sigterm processes).events
        = (daemonRun ExitReason.idleShutdown processes).events
    ∧ (daemonRun ExitReason.sigterm processes).events
        = processes.map DaemonEvent.terminateProc
            ++ [DaemonEvent.graceSleep1s]
            ++ processes.map DaemonEvent.killProc
            ++ [DaemonEvent.serverClose] := by
  refine ⟨rfl, rfl, ?_⟩
  simp [daemonRun, kill_subprocesses]

end EvmResolver
